import Mathlib

/-!
Verification development for the brain-chat backend: a shallow embedding of
the context-aggregation pipeline (contextAggregationService.ts), the prompt
assembly and conversation lifecycle (brainChatService.ts), the persistence
schemas (BrainChat.ts models) and the streaming controllers
(brainChatController.ts).

Modelling conventions:
- JavaScript strings are modelled as lists of characters (JsStr).  JS
  string operations (split, join, substring, length) are modelled by the
  corresponding list operations; JS lengths count UTF-16 code units while
  the model counts characters, which coincide on the basic plane.
- Mongoose ObjectId values are modelled as natural numbers.  Where the
  object identity of a deserialized ObjectId instance matters (the JS Set
  used for deduplication compares objects by reference), an instance is
  modelled as a pair of an allocation reference and the ObjectId value
  (JsOId below).
- The MongoDB store is modelled as in-memory lists of documents; queries
  become list filters.  Storage operations themselves are modelled as
  total (the claims under study condition on storage succeeding); the
  vector-search collaborator, whose failure behaviour is under study, is
  a parameter returning Except.
- Dates are modelled as natural numbers (milliseconds since epoch).
-/

/-- A JavaScript string, modelled as its list of characters. -/
abbrev JsStr := List Char

/-- Shorthand: the character list of a Lean string literal. -/
def str (s : String) : JsStr := s.toList

/-- JS String.prototype.split with a single-character separator: splits on
exactly that character, keeping empty pieces (so consecutive separators
produce empty-string elements), as `"a  b".split(" ")` yields
`["a", "", "b"]`. -/
def jsSplit (sep : Char) : JsStr → List JsStr
  | [] => [[]]
  | c :: cs =>
    match jsSplit sep cs with
    | [] => [[]]
    | p :: ps => if c = sep then [] :: p :: ps else (c :: p) :: ps

/-- JS Array.prototype.join with a string separator. -/
def jsJoin (sep : JsStr) (parts : List JsStr) : JsStr :=
  match parts with
  | [] => []
  | [p] => p
  | p :: ps => p ++ sep ++ jsJoin sep ps

/-- JS `a || b` on strings: the empty string is falsy. -/
def jsOr (a b : JsStr) : JsStr := if a = [] then b else a

/-- JS `x || d` on an optional number, where 0 is falsy
(`filters?.limit || 20` yields 20 when limit is 0 or absent). -/
def jsOrNum (x : Option Nat) (d : Nat) : Nat :=
  match x with
  | some n => if n = 0 then d else n
  | none => d

/-- Decimal digits of a natural number, most significant first,
with explicit fuel so that the kernel can evaluate it. -/
def natDigitsAux : Nat → Nat → JsStr
  | 0, _ => []
  | fuel + 1, n =>
    if n < 10 then [Nat.digitChar n]
    else natDigitsAux fuel (n / 10) ++ [Nat.digitChar (n % 10)]

/-- Decimal rendering of a natural number (JS template-literal
interpolation of a number). -/
def natToJsStr (n : Nat) : JsStr := natDigitsAux (n + 1) n

/-! ## ObjectId instances and the JS Set used for deduplication -/

/-- A deserialized ObjectId instance.  `ref` is the object identity of the
JS object (allocation site paired with position); `val` is the ObjectId
value it denotes.  Two instances deserialized from different documents (or
different positions) denote possibly equal values but are distinct
objects. -/
structure JsOId where
  ref : Nat × Nat
  val : Nat
deriving DecidableEq, Repr

/-- Mint fresh ObjectId instances for a list of ObjectId values, assigning
object identities (site, i), (site, i+1), ...  Models the fact that every
deserialization of a stored ObjectId produces a fresh JS object. -/
def mintFrom (site i : Nat) : List Nat → List JsOId
  | [] => []
  | v :: vs => ⟨(site, i), v⟩ :: mintFrom site (i + 1) vs

/-- Mint fresh ObjectId instances starting at position 0 of a site. -/
def mint (site : Nat) (vs : List Nat) : List JsOId := mintFrom site 0 vs

/-- Worker for jsSetDedup: scan the array keeping the first occurrence of
every object reference already seen. -/
def jsSetDedupAux (seen : List (Nat × Nat)) : List JsOId → List JsOId
  | [] => []
  | x :: xs =>
    if x.ref ∈ seen then jsSetDedupAux seen xs
    else x :: jsSetDedupAux (x.ref :: seen) xs

/-- Model of `[...new Set(xs)]` on an array of ObjectId instances.  A JS Set
compares objects with SameValueZero, i.e. by reference, so an element is
dropped only when the very same object occurred earlier in the array. -/
def jsSetDedup (xs : List JsOId) : List JsOId := jsSetDedupAux [] xs

/-! ## Data model: captures, collections, the store -/

/-- The kind tag of a context item / source descriptor. -/
inductive ItemType where
  | capture
  | collection
deriving DecidableEq, Repr

/-- The selection policy (contextType) of a context query. -/
inductive CtxType where
  | all
  | collection
  | bookmarks
  | specific
  | mixed
deriving DecidableEq, Repr

/-- A stored capture document (the fields read by this pipeline). -/
structure Capture where
  id : Nat
  owner : Nat
  status : JsStr
  bookmarked : Bool
  title : JsStr
  url : JsStr
  format : JsStr
  createdAt : Nat
deriving DecidableEq, Repr

/-- A stored collection document: a named set of capture ids owned by a
user. -/
structure Collection where
  id : Nat
  user : Nat
  captures : List Nat
deriving DecidableEq, Repr

/-- The document store backing the aggregation pipeline. -/
structure Store where
  captures : List Capture
  collections : List Collection
deriving DecidableEq, Repr

/-- One policy parameter: a kind tag and an ObjectId value. -/
structure ContextItem where
  type : ItemType
  id : Nat
deriving DecidableEq, Repr

/-- Optional query filters (ContextQuery.filters). -/
structure Filters where
  dateRange : Option (Nat × Nat)
  contentTypes : Option (List JsStr)
  limit : Option Nat
deriving DecidableEq, Repr

/-- A context-aggregation query (ContextQuery). -/
structure ContextQuery where
  userId : Nat
  contextType : CtxType
  contextItems : Option (List ContextItem)
  query : JsStr
  filters : Option Filters
deriving DecidableEq, Repr

/-! ## Aggregated context -/

/-- A source descriptor in an AggregatedContext. -/
structure Source where
  id : Nat
  type : ItemType
  title : JsStr
  relevanceScore : Rat
deriving DecidableEq, Repr

/-- A retrieved text fragment in an AggregatedContext. -/
structure Chunk where
  text : JsStr
  sourceId : Nat
  sourceType : ItemType
  similarity : Rat
deriving DecidableEq, Repr

/-- The result of context aggregation for one turn (AggregatedContext). -/
structure AggregatedContext where
  sources : List Source
  retrievedChunks : List Chunk
  totalSources : Nat
deriving DecidableEq, Repr

/-! ## Scope resolution (ContextAggregationService private helpers)

Each helper mints the ObjectId instances it returns at a distinct
allocation site, reflecting that every database read deserializes fresh
JS objects. -/

/-- Does a capture pass the optional dateRange filter
(createdAt gte start and lte end)? -/
def dateOk (filters : Option Filters) (c : Capture) : Bool :=
  match filters with
  | some f =>
    match f.dateRange with
    | some (s, e) => decide (s ≤ c.createdAt) && decide (c.createdAt ≤ e)
    | none => true
  | none => true

/-- Does a capture pass the optional contentTypes filter?  The filter is
applied only when `filters?.contentTypes?.length` is truthy, i.e. the
list is present and non-empty. -/
def formatOk (filters : Option Filters) (c : Capture) : Bool :=
  match filters with
  | some f =>
    match f.contentTypes with
    | some (t :: ts) => decide (c.format ∈ t :: ts)
    | _ => true
  | none => true

/-- getAllUserCaptures: all active captures owned by the user, passing the
optional filters, limited to 1000; only the ids are selected. -/
def getAllUserCaptures (st : Store) (userId : Nat) (filters : Option Filters) :
    List JsOId :=
  let found := st.captures.filter fun c =>
    decide (c.owner = userId) && decide (c.status = str "active")
      && dateOk filters c && formatOk filters c
  mint 3 ((found.take 1000).map (·.id))

/-- getCollectionCaptures: collections referenced by parameters of kind
collection and owned by the user are fetched; their member capture ids
are concatenated and passed through `[...new Set(...)]`. -/
def getCollectionCaptures (st : Store) (userId : Nat)
    (contextItems : List ContextItem) : List JsOId :=
  let collectionIds := (contextItems.filter (fun i => i.type == ItemType.collection)).map (·.id)
  let collections := st.collections.filter fun col =>
    decide (col.id ∈ collectionIds) && decide (col.user = userId)
  jsSetDedup (mint 1 (collections.flatMap (·.captures)))

/-- getBookmarkedCaptures: all active bookmarked captures owned by the
user, passing the optional date filter, limited to 500. -/
def getBookmarkedCaptures (st : Store) (userId : Nat) (filters : Option Filters) :
    List JsOId :=
  let found := st.captures.filter fun c =>
    decide (c.owner = userId) && c.bookmarked && decide (c.status = str "active")
      && dateOk filters c
  mint 4 ((found.take 500).map (·.id))

/-- getSpecificCaptures: the captures referenced by parameters of kind
capture, re-verified to be owned by the user and active. -/
def getSpecificCaptures (st : Store) (userId : Nat)
    (contextItems : List ContextItem) : List JsOId :=
  let captureIds := (contextItems.filter (fun i => i.type == ItemType.capture)).map (·.id)
  let found := st.captures.filter fun c =>
    decide (c.id ∈ captureIds) && decide (c.owner = userId)
      && decide (c.status = str "active")
  mint 2 (found.map (·.id))

/-- getMixedCaptures: the collection resolution and the specific
resolution over the same parameter list, concatenated and passed through
`[...new Set(...)]`. -/
def getMixedCaptures (st : Store) (userId : Nat)
    (contextItems : List ContextItem) : List JsOId :=
  jsSetDedup (getCollectionCaptures st userId contextItems
    ++ getSpecificCaptures st userId contextItems)

/-- The switch on contextType at the top of aggregateContext, building the
capture-id list (`contextItems || []` supplies the empty list when the
parameters are absent). -/
def resolveScope (st : Store) (q : ContextQuery) : List JsOId :=
  match q.contextType with
  | CtxType.all => getAllUserCaptures st q.userId q.filters
  | CtxType.collection => getCollectionCaptures st q.userId (q.contextItems.getD [])
  | CtxType.bookmarks => getBookmarkedCaptures st q.userId q.filters
  | CtxType.specific => getSpecificCaptures st q.userId (q.contextItems.getD [])
  | CtxType.mixed => getMixedCaptures st q.userId (q.contextItems.getD [])

/-- buildSourcesMetadata: on an empty id list return [] at once; otherwise
fetch the captures whose id is in the list ($in compares ObjectId values)
and build one descriptor per fetched capture, with relevance 0.5 for the
broad `all` policy and 1.0 otherwise.  The title falls back to the url and
then to "Untitled" through JS truthiness. -/
def buildSourcesMetadata (st : Store) (captureIds : List JsOId)
    (contextType : CtxType) : List Source :=
  if captureIds.isEmpty then []
  else
    let vals := captureIds.map (·.val)
    let found := st.captures.filter fun c => decide (c.id ∈ vals)
    found.map fun c =>
      { id := c.id
        type := ItemType.capture
        title := jsOr c.title (jsOr c.url (str "Untitled"))
        relevanceScore := if contextType = CtxType.all then (1 : Rat) / 2 else 1 }

/-! ## The retrieval collaborator and the multi-source search -/

/-- The argument record passed to the vector-search collaborator
searchSimilar. -/
structure SearchArgs where
  query : JsStr
  userId : Nat
  documentIds : List JsStr
  limit : Nat
  userApiKey : JsStr
deriving DecidableEq, Repr

/-- One raw result from the vector-search collaborator: optional payload
text, the source document id, an optional similarity score. -/
structure RawResult where
  payloadText : Option JsStr
  documentId : Nat
  score : Option Rat
deriving DecidableEq, Repr

/-- The vector-search collaborator, out of scope per the specification:
a black-box function that can either return ranked results or throw. -/
abbrev SearchFn := SearchArgs → Except JsStr (List RawResult)

/-- performMultiSourceSearch: on an empty capture-id list return [] before
any collaborator call; otherwise call searchSimilar with the query, user,
stringified document ids, and limit, mapping results into chunks
(`payload?.text || ''` and `score || 0` through JS truthiness, which
agrees with the default on the absent case and is the identity on the
present case).  A collaborator error is caught and turned into [].  The
second component counts collaborator invocations. -/
def performMultiSourceSearch (search : SearchFn) (query : JsStr) (userId : Nat)
    (captureIds : List JsOId) (limit : Nat) : List Chunk × Nat :=
  if captureIds.isEmpty then ([], 0)
  else
    match search
      { query := query
        userId := userId
        documentIds := captureIds.map (fun i => natToJsStr i.val)
        limit := limit
        userApiKey := [] } with
    | Except.ok results =>
      (results.map fun r =>
        { text := r.payloadText.getD []
          sourceId := r.documentId
          sourceType := ItemType.capture
          similarity := r.score.getD 0 }, 1)
    | Except.error _ => ([], 1)

/-- aggregateContext: resolve the scope, build the sources metadata, then
perform the multi-source search (limit `filters?.limit || 20`) and return
the aggregated context with totalSources the length of the resolved
capture-id list.  The try/catch around the body rethrows storage errors;
storage is modelled total here, and the search collaborator failure is
already confined inside performMultiSourceSearch, so the function is
total.  The second component counts search-collaborator invocations. -/
def aggregateContext (st : Store) (search : SearchFn) (q : ContextQuery) :
    AggregatedContext × Nat :=
  let captureIds := resolveScope st q
  let sources := buildSourcesMetadata st captureIds q.contextType
  let searched := performMultiSourceSearch search q.query q.userId captureIds
    (jsOrNum (q.filters.bind (·.limit)) 20)
  ({ sources := sources
     retrievedChunks := searched.1
     totalSources := captureIds.length }, searched.2)

/-! ## Messages, conversations and sessions -/

/-- A message role. -/
inductive Role where
  | user
  | assistant
  | system
deriving DecidableEq, Repr

/-- role.toUpperCase() as rendered in the prompt templates. -/
def roleUpper : Role → JsStr
  | Role.user => str "USER"
  | Role.assistant => str "ASSISTANT"
  | Role.system => str "SYSTEM"

/-- A message delivery status (conversation schema variant). -/
inductive MsgStatus where
  | sent
  | received
deriving DecidableEq, Repr

/-- A message of the conversation schema variant (BrainChatMessage). -/
structure BCMessage where
  id : JsStr
  role : Role
  content : JsStr
  timestamp : Nat
  status : MsgStatus
deriving DecidableEq, Repr

/-- A persisted BrainChatConversation document. -/
structure Conversation where
  id : Nat
  userId : Nat
  title : JsStr
  messages : List BCMessage
  isActive : Bool
  lastActivity : Nat
  createdAt : Nat
deriving DecidableEq, Repr

/-- The provenance recorded on an assistant turn of the session schema
variant: source ids used and the retrieved-fragment count. -/
structure ContextUsed where
  sources : List Nat
  retrievedChunks : Nat
deriving DecidableEq, Repr

/-- A message of the session schema variant. -/
structure SessionMessage where
  role : Role
  content : JsStr
  timestamp : Nat
  contextUsed : Option ContextUsed
deriving DecidableEq, Repr

/-- A persisted BrainChatSession document. -/
structure Session where
  id : Nat
  userId : Nat
  title : JsStr
  contextType : CtxType
  messages : List SessionMessage
  isActive : Bool
  lastActivity : Nat
  updatedAt : Nat
deriving DecidableEq, Repr

/-! ## Persistence operations -/

/-- Model.findById: match a document by record id only. -/
def findById (convs : List Conversation) (conversationId : Nat) :
    Option Conversation :=
  convs.find? fun c => c.id == conversationId

/-- Model.findOne with a compound filter by record id and owning user. -/
def findOneByIdAndUser (convs : List Conversation) (conversationId userId : Nat) :
    Option Conversation :=
  convs.find? fun c => c.id == conversationId && c.userId == userId

/-- document.save() on the conversation schema: the pre-save middleware of
BrainChatConversationSchema sets lastActivity to the current time, then
the document is written. -/
def saveConversation (now : Nat) (c : Conversation) : Conversation :=
  { c with lastActivity := now }

/-- document.save() on the session schema: the pre-save middleware of
BrainChatSessionSchema sets lastActivity to the current time, then the
document is written. -/
def saveSession (now : Nat) (s : Session) : Session :=
  { s with lastActivity := now }

/-! ## BrainChatService operations -/

/-- The fixed system instruction prefixed to every generation request. -/
def systemInstruction : JsStr :=
  str "You are a helpful assistant that can help with questions about the user\x27s brain chat conversation."

/-- A chat message as sent to the generation collaborator. -/
structure ChatMsg where
  role : Role
  content : JsStr
deriving DecidableEq, Repr

/-- BrainChatService.sendMessage: loads the conversation with findById
(the conversationId alone is the query; the userId parameter is accepted
but not used in the query), throws Conversation-not-found when absent,
and otherwise returns the loaded conversation together with the message
list handed to the streaming generation collaborator: the fixed system
instruction, the stored history, then the new user content.  The stream
itself is not consumed here. -/
def serviceSendMessage (convs : List Conversation) (conversationId userId : Nat)
    (content : JsStr) : Except JsStr (Conversation × List ChatMsg) :=
  match findById convs conversationId with
  | none => Except.error (str "Conversation not found")
  | some conversation =>
    Except.ok (conversation,
      { role := Role.system, content := systemInstruction }
        :: conversation.messages.map (fun m => { role := m.role, content := m.content })
        ++ [{ role := Role.user, content := content }])

/-- The session load at the top of BrainChatService.processBrainChat:
`sessionId ? BrainChatConversation.findById(sessionId) : null`.  The
query is by sessionId alone; the requesting userId carried by the
request is not part of the filter. -/
def processBrainChatLoadSession (convs : List Conversation) (userId : Nat)
    (sessionId : Option Nat) : Option Conversation :=
  match sessionId with
  | some sid => findById convs sid
  | none => none

/-- BrainChatService.getConversation: findOne filtered by conversation id
and owning user id. -/
def getConversation (convs : List Conversation) (conversationId userId : Nat) :
    Option Conversation :=
  findOneByIdAndUser convs conversationId userId

/-- BrainChatService.generateSessionTitle: the first message is split on
the space character, the first 5 pieces are joined by single spaces, and
the result is truncated to its first 47 characters plus "..." when longer
than 50 characters. -/
def generateSessionTitle (firstMessage : JsStr) : JsStr :=
  let words := jsJoin (str " ") ((jsSplit ' ' firstMessage).take 5)
  if 50 < words.length then words.take 47 ++ str "..." else words

/-- BrainChatService.updateSessionWithMessages: push the user turn and the
assistant turn (carrying the provenance of the aggregated context) onto
the session, then save it (running the pre-save middleware). -/
def updateSessionWithMessages (session : Session) (userMessage aiResponse : JsStr)
    (ctx : AggregatedContext) (now : Nat) : Session :=
  let contextUsed : ContextUsed :=
    { sources := ctx.sources.map (·.id)
      retrievedChunks := ctx.retrievedChunks.length }
  saveSession now
    { session with
        messages := session.messages
          ++ [{ role := Role.user, content := userMessage, timestamp := now,
                contextUsed := none },
              { role := Role.assistant, content := aiResponse, timestamp := now,
                contextUsed := some contextUsed }] }

/-! ## Prompt assembly -/

/-- BrainChatService.buildContextString: with no retrieved fragments the
block states that no relevant information was found across totalSources
sources; otherwise the first (at most) 10 fragments are each rendered as
a From line plus the fragment text, joined by a separator, and the block
opens with a line giving the fragment count and the source count. -/
def buildContextString (ctx : AggregatedContext) : JsStr :=
  if ctx.retrievedChunks.isEmpty then
    str "No relevant information found across " ++ natToJsStr ctx.totalSources
      ++ str " sources."
  else
    let chunks := jsJoin (str "\n\n---\n\n")
      ((ctx.retrievedChunks.take 10).map fun c =>
        str "[From: " ++ natToJsStr c.sourceId ++ str "]\n" ++ c.text)
    str "Found " ++ natToJsStr ctx.retrievedChunks.length
      ++ str " relevant pieces of information from "
      ++ natToJsStr ctx.sources.length ++ str " sources:\n\n" ++ chunks

/-- BrainChatService.buildBrainChatPrompt: the fixed persona preamble, the
context block labelled with the source count, the history rendered as
ROLE: content pairs, the fixed instruction list, and the trailing
assistant marker. -/
def buildBrainChatPrompt (messages : List BCMessage) (contextString : JsStr)
    (sourceCount : Nat) : JsStr :=
  let conversationText :=
    jsJoin (str "\n\n") (messages.map fun m => roleUpper m.role ++ str ": " ++ m.content)
  str "You are an intelligent knowledge assistant that helps users explore and understand information from their personal knowledge base.\n\nCONTEXT INFORMATION ("
    ++ natToJsStr sourceCount
    ++ str " sources searched):\n"
    ++ contextString
    ++ str "\n\nCONVERSATION HISTORY:\n"
    ++ conversationText
    ++ str "\n\nINSTRUCTIONS:\n- Use the context information provided above to answer questions accurately\n- If the context doesn\x27t contain relevant information, say so clearly\n- Be conversational and helpful\n- Reference specific sources when relevant\n- Ask clarifying questions if the user\x27s intent is unclear\n- Maintain context from the conversation history\n\nASSISTANT: "

/-! ## Streaming controllers (BrainChatController) -/

/-- The payload of one chunk arriving on the generation stream:
an optional error object, the optional text delta
(chunk.choices first delta content), and whether usage data is present. -/
structure ChunkPayload where
  errorMsg : Option JsStr
  delta : Option JsStr
  usage : Bool
deriving DecidableEq, Repr

/-- One step of consuming the generation stream.  `chunk` is a delivered
chunk; `abortRaised` is the abort error raised by the iterator at a chunk
boundary once the cancellation signal (passed down to the generation
collaborator) has fired: the for-await loop rejects instead of yielding a
further chunk. -/
inductive StreamEvent where
  | chunk (p : ChunkPayload)
  | abortRaised
deriving DecidableEq, Repr

/-- A plain delta chunk carrying text d. -/
def deltaChunk (d : JsStr) : StreamEvent :=
  StreamEvent.chunk { errorMsg := none, delta := some d, usage := false }

/-- One server-sent event written to the response. -/
inductive OutEvent where
  | deltaEvent (delta : JsStr)
  | usageEvent
  | doneEvent
  | errorEvent
deriving DecidableEq, Repr

/-- The observable outcome of one streaming controller request:
the conversation document committed by the final save (if that save ran),
the events written to the caller, and whether the catch block ran. -/
structure RunResult where
  saved : Option Conversation
  writes : List OutEvent
  errored : Bool
deriving DecidableEq, Repr

/-- The for-await loop shared verbatim by BrainChatController.sendMessage
and BrainChatController.startConversation: each chunk with an error
payload is thrown (caught by the surrounding catch, which writes an error
event and ends without saving); a truthy text delta is accumulated and
relayed; usage data is relayed; an abort error raised by the iterator is
likewise caught without saving.  Only when the stream completes normally
is the assistant message holding the accumulated text pushed and the
conversation saved (the pre-save middleware stamping lastActivity),
followed by the done event. -/
def driveStream (conversation : Conversation) (now : Nat) :
    List StreamEvent → JsStr → List OutEvent → RunResult
  | [], assistantText, writes =>
    let final := saveConversation now
      { conversation with
          messages := conversation.messages
            ++ [{ id := str "uuid", role := Role.assistant,
                  content := assistantText, timestamp := now,
                  status := MsgStatus.received }] }
    { saved := some final, writes := writes ++ [OutEvent.doneEvent], errored := false }
  | StreamEvent.abortRaised :: _, _, writes =>
    { saved := none, writes := writes ++ [OutEvent.errorEvent], errored := true }
  | StreamEvent.chunk p :: rest, assistantText, writes =>
    match p.errorMsg with
    | some _ =>
      { saved := none, writes := writes ++ [OutEvent.errorEvent], errored := true }
    | none =>
      let stepped :=
        match p.delta with
        | some d =>
          if d = [] then (assistantText, writes)
          else (assistantText ++ d, writes ++ [OutEvent.deltaEvent d])
        | none => (assistantText, writes)
      let writes2 := if p.usage then stepped.2 ++ [OutEvent.usageEvent] else stepped.2
      driveStream conversation now rest stepped.1 writes2

/-- BrainChatController.sendMessage: load the conversation through
BrainChatService.sendMessage (which also builds the generation request),
then drain the stream with the shared loop; a service error is caught,
written as an error event, and nothing is saved. -/
def controllerSendMessage (convs : List Conversation) (conversationId userId : Nat)
    (message : JsStr) (events : List StreamEvent) (now : Nat) : RunResult :=
  match serviceSendMessage convs conversationId userId message with
  | Except.error _ => { saved := none, writes := [OutEvent.errorEvent], errored := true }
  | Except.ok (conversation, _toGenerate) => driveStream conversation now events [] []

/-- BrainChatService.startConversationStreaming: requires a non-empty
initial message list, builds the new (unsaved) conversation document with
the fixed title, and returns it together with the stream request.  The
record id of the not-yet-persisted document is a placeholder; the static
context descriptor carried by the request is not modelled (no claim
refers to it). -/
def startConversationStreaming (userId : Nat) (reqMessages : List BCMessage)
    (createdAt : Nat) : Except JsStr Conversation :=
  if reqMessages.isEmpty then
    Except.error (str "Messages are required to start a conversation")
  else
    Except.ok
      { id := 0, userId := userId, title := str "new conversation"
        messages := reqMessages, isActive := true
        lastActivity := createdAt, createdAt := createdAt }

/-- BrainChatController.startConversation: create the unsaved conversation
and the stream through the service, then drain the stream with the shared
loop; a service error is caught, written as an error event, and nothing
is saved. -/
def controllerStartConversation (userId : Nat) (reqMessages : List BCMessage)
    (createdAt : Nat) (events : List StreamEvent) (now : Nat) : RunResult :=
  match startConversationStreaming userId reqMessages createdAt with
  | Except.error _ => { saved := none, writes := [OutEvent.errorEvent], errored := true }
  | Except.ok conversation => driveStream conversation now events [] []

/-! ## Controller-level title update -/

/-- JS String.prototype.trim. -/
def jsTrim (s : JsStr) : JsStr :=
  ((s.dropWhile Char.isWhitespace).reverse.dropWhile Char.isWhitespace).reverse

/-- Update the first document matching the compound (id, user) filter
in place (findOneAndUpdate touches exactly one document). -/
def updateFirst (sessions : List Session) (sessionId userId : Nat)
    (f : Session → Session) : List Session :=
  match sessions with
  | [] => []
  | s :: rest =>
    if s.id == sessionId && s.userId == userId then f s :: rest
    else s :: updateFirst rest sessionId userId f

/-- BrainChatSession.findOneAndUpdate filtered by session id and user id,
setting the title: the matched document gets the new title, and the
schema-level timestamps option refreshes updatedAt.  findOneAndUpdate is
not a document save, so the pre-save middleware does not run and
lastActivity is left as it was.  Returns the updated store and (with the
new-document option) the updated document. -/
def findOneAndUpdateTitle (sessions : List Session) (sessionId userId : Nat)
    (title : JsStr) (now : Nat) : List Session × Option Session :=
  let upd := fun (m : Session) => { m with title := title, updatedAt := now }
  (updateFirst sessions sessionId userId upd,
   (sessions.find? (fun s => s.id == sessionId && s.userId == userId)).map upd)

/-- BrainChatController.updateSessionTitle: reject an empty-after-trim or
over-200-character title, then persist the trimmed title through
findOneAndUpdate scoped by (sessionId, userId). -/
def controllerUpdateSessionTitle (sessions : List Session) (sessionId userId : Nat)
    (title : JsStr) (now : Nat) : List Session × Option Session :=
  if jsTrim title = [] ∨ 200 < title.length then (sessions, none)
  else findOneAndUpdateTitle sessions sessionId userId (jsTrim title) now

/-! ## Definitions following the wording of the specification

These are used only to compare the code with the specification text on
refinement-style claims; they are written from the wording of the claims
under study, not from the source. -/

/-- Whitespace splitting per the claim wording for the title derivation:
same splitting scheme as jsSplit, but on every whitespace character. -/
def splitByWs : JsStr → List JsStr
  | [] => [[]]
  | c :: cs =>
    match splitByWs cs with
    | [] => [[]]
    | p :: ps => if c.isWhitespace then [] :: p :: ps else (c :: p) :: ps

/-- The whitespace-separated words of a string: whitespace splitting with
empty pieces dropped. -/
def whitespaceWords (s : JsStr) : List JsStr :=
  (splitByWs s).filter (fun w => w ≠ [])

/-- The title derivation exactly as the claim words it: the first 5
whitespace-separated words joined by single spaces, and the first 47
characters plus "..." when the joined string exceeds 50 characters. -/
def claimTitle (firstMessage : JsStr) : JsStr :=
  let words := jsJoin (str " ") ((whitespaceWords firstMessage).take 5)
  if 50 < words.length then words.take 47 ++ str "..." else words

/-- The message has only single spaces as whitespace: every whitespace
character is the plain space, and no two separators are adjacent (nor at
the ends), so space splitting produces no empty piece. -/
def SingleSpaced (s : JsStr) : Prop :=
  (∀ c ∈ s, c.isWhitespace → c = ' ') ∧ [] ∉ jsSplit ' ' s

instance : DecidablePred SingleSpaced := fun s => by
  unfold SingleSpaced; infer_instance

/-- The context block as the amended claim describes it: a line giving
the fragment count and the source count, then at most the first 10
fragments in retrieval order, each rendered as a From line naming the
source id followed by the fragment text, joined by the separator. -/
def contextBlockSpec (ctx : AggregatedContext) : JsStr :=
  str "Found " ++ natToJsStr ctx.retrievedChunks.length
    ++ str " relevant pieces of information from "
    ++ natToJsStr ctx.sources.length ++ str " sources:\n\n"
    ++ jsJoin (str "\n\n---\n\n")
      ((ctx.retrievedChunks.take 10).map fun c =>
        str "[From: " ++ natToJsStr c.sourceId ++ str "]\n" ++ c.text)

/-- The last line of a string (the piece after the final newline). -/
def lastLine (s : JsStr) : JsStr := (jsSplit '\n' s).getLastD []

/-- A store in which every member id of a user-owned collection refers to
a capture owned by that same user (referential integrity between
collections and captures, maintained outside this pipeline). -/
def OwnedCollectionsClosed (st : Store) : Prop :=
  ∀ col ∈ st.collections, ∀ v ∈ col.captures,
    ∃ c ∈ st.captures, c.id = v ∧ c.owner = col.user

instance : DecidablePred OwnedCollectionsClosed := fun st => by
  unfold OwnedCollectionsClosed; infer_instance

/-! ## Concrete documents and stores used by witnesses and
counterexamples -/

/-- A capture owned by user 2. -/
def capOfUser2 : Capture :=
  { id := 10, owner := 2, status := str "active", bookmarked := false
    title := str "theirs", url := [], format := str "note", createdAt := 0 }

/-- A store where user 1 owns a collection whose member capture belongs
to user 2. -/
def exStoreForeign : Store :=
  { captures := [capOfUser2]
    collections := [{ id := 100, user := 1, captures := [10] }] }

/-- A collection query by user 1 referencing their own collection 100. -/
def exQueryCollection : ContextQuery :=
  { userId := 1, contextType := CtxType.collection
    contextItems := some [{ type := ItemType.collection, id := 100 }]
    query := str "q", filters := none }

/-- A well-formed store: user 1 owns capture 10 and collection 100
containing it. -/
def wfStore : Store :=
  { captures := [{ id := 10, owner := 1, status := str "active",
                   bookmarked := false, title := str "mine", url := [],
                   format := str "note", createdAt := 0 }]
    collections := [{ id := 100, user := 1, captures := [10] }] }

/-- Two collections of user 1 with overlapping membership: captures
[10, 11] and [11, 12]. -/
def exStoreOverlap : Store :=
  { captures := []
    collections := [{ id := 100, user := 1, captures := [10, 11] },
                    { id := 101, user := 1, captures := [11, 12] }] }

/-- Parameters referencing the two overlapping collections. -/
def exItemsOverlap : List ContextItem :=
  [{ type := ItemType.collection, id := 100 },
   { type := ItemType.collection, id := 101 }]

/-- The empty store. -/
def emptyStore : Store := { captures := [], collections := [] }

/-- An `all` query by user 1 with no filters. -/
def exQueryAll : ContextQuery :=
  { userId := 1, contextType := CtxType.all, contextItems := none
    query := str "q", filters := none }

/-- A search collaborator that succeeds with no results. -/
def okSearch : SearchFn := fun _ => Except.ok []

/-- A store holding a single conversation owned by user 1 with record
id 100. -/
def exConvs : List Conversation :=
  [{ id := 100, userId := 1, title := str "t", messages := []
     isActive := true, lastActivity := 0, createdAt := 0 }]

/-- A session store holding one session of user 1 with record id 200 and
lastActivity 5. -/
def exSessions : List Session :=
  [{ id := 200, userId := 1, title := str "old", contextType := CtxType.all
     messages := [], isActive := true, lastActivity := 5, updatedAt := 5 }]

/-- An aggregated context with one retrieved fragment whose text is
"hello" and one source. -/
def exCtxOneChunk : AggregatedContext :=
  { sources := [{ id := 7, type := ItemType.capture, title := str "t",
                  relevanceScore := 1 }]
    retrievedChunks := [{ text := str "hello", sourceId := 7,
                          sourceType := ItemType.capture, similarity := 1 }]
    totalSources := 1 }

/-- A store with one active capture owned by user 1. -/
def exStoreOneCapture : Store :=
  { captures := [{ id := 10, owner := 1, status := str "active",
                   bookmarked := false, title := str "T", url := [],
                   format := str "note", createdAt := 0 }]
    collections := [] }

/-! ## Helper lemmas -/

/-- Minting preserves the list of ObjectId values. -/
theorem map_val_mintFrom (site : Nat) (vs : List Nat) :
    ∀ i, (mintFrom site i vs).map (·.val) = vs := by
  induction vs with
  | nil => intro i; rfl
  | cons v vs ih => intro i; simp [mintFrom, ih]

/-- An element surviving the Set deduplication occurred in the input. -/
theorem mem_of_mem_jsSetDedupAux (x : JsOId) :
    ∀ (xs : List JsOId) (seen : List (Nat × Nat)),
      x ∈ jsSetDedupAux seen xs → x ∈ xs := by
  intro xs
  induction xs with
  | nil => intro seen h; simp [jsSetDedupAux] at h
  | cons y ys ih =>
    intro seen h
    simp only [jsSetDedupAux] at h
    by_cases hy : y.ref ∈ seen
    · simp only [if_pos hy] at h
      exact List.mem_cons_of_mem _ (ih _ h)
    · simp only [if_neg hy, List.mem_cons] at h
      rcases h with h | h
      · exact h ▸ List.mem_cons_self _ _
      · exact List.mem_cons_of_mem _ (ih _ h)

/-- An element surviving `[...new Set(xs)]` occurred in xs. -/
theorem mem_of_mem_jsSetDedup {x : JsOId} {xs : List JsOId}
    (h : x ∈ jsSetDedup xs) : x ∈ xs :=
  mem_of_mem_jsSetDedupAux x xs [] h

/-- A value in the value list of a minted, deduplicated id list occurred
among the minted values. -/
theorem val_mem_of_mem_dedup_mint {v : Nat} {site : Nat} {vs : List Nat}
    (h : v ∈ (jsSetDedup (mint site vs)).map (·.val)) : v ∈ vs := by
  rcases List.mem_map.mp h with ⟨x, hx, hval⟩
  have hx' : x ∈ mint site vs := mem_of_mem_jsSetDedup hx
  have : x.val ∈ (mintFrom site 0 vs).map (·.val) := List.mem_map_of_mem _ hx'
  rw [map_val_mintFrom] at this
  exact hval ▸ this

/-- Every value resolved by the `all` policy is the id of an active
capture owned by the requesting user. -/
theorem owned_of_mem_getAllUserCaptures {st : Store} {u : Nat}
    {filters : Option Filters} {v : Nat}
    (h : v ∈ (getAllUserCaptures st u filters).map (·.val)) :
    ∃ c ∈ st.captures, c.id = v ∧ c.owner = u := by
  unfold getAllUserCaptures at h
  rw [mint, map_val_mintFrom] at h
  rcases List.mem_map.mp h with ⟨c, hc, hid⟩
  have hc' := List.take_subset 1000 _ hc
  rcases List.mem_filter.mp hc' with ⟨hmem, hpred⟩
  simp only [Bool.and_eq_true, decide_eq_true_eq] at hpred
  exact ⟨c, hmem, hid, hpred.1.1.1⟩

/-- Every value resolved by the `bookmarks` policy is the id of an active
bookmarked capture owned by the requesting user. -/
theorem owned_of_mem_getBookmarkedCaptures {st : Store} {u : Nat}
    {filters : Option Filters} {v : Nat}
    (h : v ∈ (getBookmarkedCaptures st u filters).map (·.val)) :
    ∃ c ∈ st.captures, c.id = v ∧ c.owner = u := by
  unfold getBookmarkedCaptures at h
  rw [mint, map_val_mintFrom] at h
  rcases List.mem_map.mp h with ⟨c, hc, hid⟩
  have hc' := List.take_subset 500 _ hc
  rcases List.mem_filter.mp hc' with ⟨hmem, hpred⟩
  simp only [Bool.and_eq_true, decide_eq_true_eq] at hpred
  exact ⟨c, hmem, hid, hpred.1.1.1⟩

/-- Every value resolved by the `specific` policy is the id of an active
capture owned by the requesting user. -/
theorem owned_of_mem_getSpecificCaptures {st : Store} {u : Nat}
    {items : List ContextItem} {v : Nat}
    (h : v ∈ (getSpecificCaptures st u items).map (·.val)) :
    ∃ c ∈ st.captures, c.id = v ∧ c.owner = u := by
  unfold getSpecificCaptures at h
  rw [mint, map_val_mintFrom] at h
  rcases List.mem_map.mp h with ⟨c, hc, hid⟩
  rcases List.mem_filter.mp hc with ⟨hmem, hpred⟩
  simp only [Bool.and_eq_true, decide_eq_true_eq] at hpred
  exact ⟨c, hmem, hid, hpred.1.2⟩

/-- Under collection/capture referential integrity, every value resolved
by the `collection` policy is the id of a capture owned by the requesting
user. -/
theorem owned_of_mem_getCollectionCaptures {st : Store} {u : Nat}
    {items : List ContextItem} {v : Nat}
    (hwf : OwnedCollectionsClosed st)
    (h : v ∈ (getCollectionCaptures st u items).map (·.val)) :
    ∃ c ∈ st.captures, c.id = v ∧ c.owner = u := by
  unfold getCollectionCaptures at h
  have hv := val_mem_of_mem_dedup_mint h
  rcases List.mem_flatMap.mp hv with ⟨col, hcol, hvcol⟩
  rcases List.mem_filter.mp hcol with ⟨hmem, hpred⟩
  simp only [Bool.and_eq_true, decide_eq_true_eq] at hpred
  rcases hwf col hmem v hvcol with ⟨c, hc, hid, hown⟩
  exact ⟨c, hc, hid, hpred.2 ▸ hown⟩

/-- Under collection/capture referential integrity, every value resolved
by the `mixed` policy is the id of a capture owned by the requesting
user. -/
theorem owned_of_mem_getMixedCaptures {st : Store} {u : Nat}
    {items : List ContextItem} {v : Nat}
    (hwf : OwnedCollectionsClosed st)
    (h : v ∈ (getMixedCaptures st u items).map (·.val)) :
    ∃ c ∈ st.captures, c.id = v ∧ c.owner = u := by
  unfold getMixedCaptures at h
  rcases List.mem_map.mp h with ⟨x, hx, hval⟩
  have hx' := mem_of_mem_jsSetDedup hx
  rcases List.mem_append.mp hx' with hx'' | hx''
  · have : x.val ∈ (getCollectionCaptures st u items).map (·.val) :=
      List.mem_map_of_mem _ hx''
    exact owned_of_mem_getCollectionCaptures hwf (hval ▸ this)
  · have : x.val ∈ (getSpecificCaptures st u items).map (·.val) :=
      List.mem_map_of_mem _ hx''
    exact owned_of_mem_getSpecificCaptures (hval ▸ this)

/-- JS split never yields an empty array. -/
theorem jsSplit_ne_nil (sep : Char) (s : JsStr) : jsSplit sep s ≠ [] := by
  cases s with
  | nil => simp [jsSplit]
  | cons c cs =>
    simp only [jsSplit]
    rcases h : jsSplit sep cs with _ | ⟨p, ps⟩
    · simp
    · by_cases hc : c = sep <;> simp [hc]

/-- When the only whitespace in a string is the plain space, whitespace
splitting and space splitting coincide. -/
theorem splitByWs_eq_jsSplit_space (s : JsStr)
    (h : ∀ c ∈ s, c.isWhitespace → c = ' ') :
    splitByWs s = jsSplit ' ' s := by
  induction s with
  | nil => rfl
  | cons c cs ih =>
    have hcs : ∀ x ∈ cs, x.isWhitespace → x = ' ' :=
      fun x hx => h x (List.mem_cons_of_mem _ hx)
    have hc := h c (List.mem_cons_self _ _)
    simp only [splitByWs, jsSplit, ih hcs]
    rcases hsp : jsSplit ' ' cs with _ | ⟨p, ps⟩
    · exact absurd hsp (jsSplit_ne_nil _ _)
    · by_cases hw : c.isWhitespace
      · have hceq : c = ' ' := hc hw
        simp [hceq, hw]
      · have hne : c ≠ ' ' := by
          intro he
          exact hw (he ▸ (by decide : (' ').isWhitespace = true))
        simp [hw, hne]

/-- The title derived by the code never exceeds 50 characters. -/
theorem generateSessionTitle_length_le (msg : JsStr) :
    (generateSessionTitle msg).length ≤ 50 := by
  unfold generateSessionTitle
  by_cases h : 50 < (jsJoin (str " ") ((jsSplit ' ' msg).take 5)).length
  · simp only [if_pos h, List.length_append, List.length_take]
    have : min 47 (jsJoin (str " ") ((jsSplit ' ' msg).take 5)).length ≤ 47 :=
      Nat.min_le_left _ _
    have hdots : (str "...").length = 3 := by decide
    omega
  · simp only [if_neg h]
    omega

/-- The abort-at-a-chunk-boundary run of the shared streaming loop never
reaches the save: whatever deltas were accumulated are discarded. -/
theorem driveStream_abort_no_save (conversation : Conversation) (now : Nat) :
    ∀ (deltas : List JsStr) (rest : List StreamEvent) (acc : JsStr)
      (writes : List OutEvent),
      (driveStream conversation now
        (deltas.map deltaChunk ++ StreamEvent.abortRaised :: rest)
        acc writes).saved = none := by
  intro deltas
  induction deltas with
  | nil => intro rest acc writes; rfl
  | cons d ds ih =>
    intro rest acc writes
    simp only [List.map_cons, List.cons_append, deltaChunk, driveStream]
    by_cases hd : d = []
    · simp only [hd, if_pos rfl]
      exact ih rest acc writes
    · simp only [if_neg hd]
      exact ih rest (acc ++ d) (writes ++ [OutEvent.deltaEvent d])

/-- A per-document update that does not touch lastActivity leaves the
stored lastActivity of every document unchanged. -/
theorem map_lastActivity_updateFirst (sid uid : Nat) (f : Session → Session)
    (hf : ∀ s, (f s).lastActivity = s.lastActivity) :
    ∀ sessions : List Session,
      (updateFirst sessions sid uid f).map (·.lastActivity)
        = sessions.map (·.lastActivity) := by
  intro sessions
  induction sessions with
  | nil => rfl
  | cons s rest ih =>
    simp only [updateFirst]
    by_cases hc : (s.id == sid && s.userId == uid) = true
    · simp [hc, hf]
    · simp [hc, ih]

/-! ## Claims -/

/-- Claim C1, behaviour at a concrete failing input: the claim states that
every read, update, or delete on a persisted conversation/session filters
by the requesting user in addition to the record id.  The code violates
this: with conversation 100 owned by user 1, a sendMessage request by user
2 loads (and would then append to and persist) user 1's record, because
BrainChatService.sendMessage queries with findById alone, ignoring its
userId parameter; the processBrainChat session load likewise queries by
sessionId alone.  The owner-scoped getConversation, by contrast, returns
nothing for user 2. -/
theorem C1_unscoped_loads :
    ((serviceSendMessage exConvs 100 2 (str "hi")).toOption.map
        (fun p => p.1.userId) = some 1)
    ∧ (processBrainChatLoadSession exConvs 2 (some 100)).map (·.userId) = some 1
    ∧ getConversation exConvs 100 2 = none := by decide

/-- Claim C2, counterexample: the resolved scope of a `collection` query
can contain the id of a capture the requesting user does not own — user
1's own collection 100 lists capture 10, which belongs to user 2, and the
resolver returns it without a per-capture ownership check. -/
theorem C2_counterexample :
    (10 ∈ (resolveScope exStoreForeign exQueryCollection).map (·.val))
    ∧ (∀ c ∈ exStoreForeign.captures, c.id = 10 → c.owner ≠ 1) := by decide

/-- Claim C2 (amended): for every policy, the resolved scope contains
only ids of captures owned by the requesting user, provided every member
id of a user-owned collection refers to a capture owned by that user; the
`all`, `bookmarks` and `specific` policies check ownership per capture,
while `collection` and `mixed` only check ownership of the collections
and return their member ids as stored. -/
theorem C2_scope_ownership (st : Store) (q : ContextQuery)
    (hwf : OwnedCollectionsClosed st) :
    ∀ v ∈ (resolveScope st q).map (·.val),
      ∃ c ∈ st.captures, c.id = v ∧ c.owner = q.userId := by
  intro v hv
  rcases q with ⟨u, ct, items, qq, fs⟩
  cases ct
  · exact owned_of_mem_getAllUserCaptures hv
  · exact owned_of_mem_getCollectionCaptures hwf hv
  · exact owned_of_mem_getBookmarkedCaptures hv
  · exact owned_of_mem_getSpecificCaptures hv
  · exact owned_of_mem_getMixedCaptures hwf hv

/-- Witness for C2_scope_ownership at a concrete well-formed store. -/
theorem C2_scope_ownership_witness :
    ∃ c ∈ wfStore.captures, c.id = 10 ∧ c.owner = 1 :=
  C2_scope_ownership wfStore exQueryCollection (by decide) 10 (by decide)

/-- Claim C3: when the retrieval collaborator throws, aggregateContext
still returns: the sources list it already gathered (identical to the one
any non-failing run gathers), an empty retrievedChunks list, and the
resolved totalSources count.  The collaborator error is confined inside
performMultiSourceSearch. -/
theorem C3_retrieval_failure_degrades (st : Store) (q : ContextQuery)
    (e : JsStr) (f : SearchFn) :
    (aggregateContext st (fun _ => Except.error e) q).1.sources
        = buildSourcesMetadata st (resolveScope st q) q.contextType
    ∧ (aggregateContext st (fun _ => Except.error e) q).1.retrievedChunks = []
    ∧ (aggregateContext st (fun _ => Except.error e) q).1.totalSources
        = (resolveScope st q).length
    ∧ (aggregateContext st (fun _ => Except.error e) q).1.sources
        = (aggregateContext st f q).1.sources := by
  refine ⟨rfl, ?_, rfl, rfl⟩
  unfold aggregateContext performMultiSourceSearch
  by_cases h : (resolveScope st q).isEmpty <;> simp [h]

/-- Claim C4: a query whose scope resolves to the empty id list yields
exactly the empty aggregated context, with zero invocations of the
search collaborator. -/
theorem C4_empty_scope (st : Store) (f : SearchFn) (q : ContextQuery)
    (h : resolveScope st q = []) :
    aggregateContext st f q
      = ({ sources := [], retrievedChunks := [], totalSources := 0 }, 0) := by
  unfold aggregateContext performMultiSourceSearch buildSourcesMetadata
  rw [h]
  simp

/-- Witness for C4_empty_scope on the empty store. -/
theorem C4_empty_scope_witness :
    aggregateContext emptyStore okSearch exQueryAll
      = ({ sources := [], retrievedChunks := [], totalSources := 0 }, 0) :=
  C4_empty_scope emptyStore okSearch exQueryAll (by decide)

/-- Claim C5: when the cancellation signal aborts the generation stream
at a chunk boundary after any number of delta chunks and before normal
completion, neither streaming controller commits an assistant turn with
the partially accumulated text: the save is never reached (the abort
error lands in the catch block). -/
theorem C5_cancel_discards_partial (convs : List Conversation)
    (conversationId userId : Nat) (message : JsStr)
    (userId2 createdAt now : Nat) (reqMessages : List BCMessage)
    (deltas : List JsStr) (rest : List StreamEvent) :
    (controllerSendMessage convs conversationId userId message
        (deltas.map deltaChunk ++ StreamEvent.abortRaised :: rest) now).saved
      = none
    ∧ (controllerStartConversation userId2 reqMessages createdAt
        (deltas.map deltaChunk ++ StreamEvent.abortRaised :: rest) now).saved
      = none := by
  constructor
  · unfold controllerSendMessage
    cases serviceSendMessage convs conversationId userId message with
    | error e => rfl
    | ok p => exact driveStream_abort_no_save p.1 now deltas rest [] []
  · unfold controllerStartConversation
    cases startConversationStreaming userId2 reqMessages createdAt with
    | error e => rfl
    | ok conversation => exact driveStream_abort_no_save conversation now deltas rest [] []

/-- Claim C6, behaviour at a concrete failing input: two collections of
the same user with overlapping member lists [10, 11] and [11, 12] resolve
to [10, 11, 11, 12] of length 4 — the duplicate member 11 is NOT removed,
because the Set deduplication compares freshly deserialized ObjectId
objects by reference and never finds two equal ones. -/
theorem C6_overlap_not_deduplicated :
    ((getCollectionCaptures exStoreOverlap 1 exItemsOverlap).map (·.val)
        = [10, 11, 11, 12])
    ∧ (getCollectionCaptures exStoreOverlap 1 exItemsOverlap).length = 4 := by
  decide

/-- Claim C7, counterexample: with one retrieved fragment of text "hello"
the context block is the summary line first and the fragments after it;
its last line is the fragment text and holds no digit, so the block does
not end with (is not followed by) a line summarizing the fragment count
and source count, contrary to the claimed ordering. -/
theorem C7_counterexample :
    buildContextString exCtxOneChunk
      = str "Found 1 relevant pieces of information from 1 sources:\n\n[From: 7]\nhello"
    ∧ lastLine (buildContextString exCtxOneChunk) = str "hello"
    ∧ ∀ c ∈ lastLine (buildContextString exCtxOneChunk), c.isDigit = false := by
  decide

/-- Claim C7 (amended): with at least one fragment, the context block is
a line giving the fragment count and the source count followed by at most
the first 10 fragments in retrieval order, each rendered as a From line
naming the source id and then the fragment text, joined by the separator;
at most 10 fragments are ever rendered, and the block is embedded
verbatim inside the built prompt. -/
theorem C7_context_block (ctx : AggregatedContext) (msgs : List BCMessage)
    (n : Nat) (h : ctx.retrievedChunks ≠ []) :
    buildContextString ctx = contextBlockSpec ctx
    ∧ (ctx.retrievedChunks.take 10).length ≤ 10
    ∧ buildContextString ctx
        <:+: buildBrainChatPrompt msgs (buildContextString ctx) n := by
  refine ⟨?_, ?_, ?_⟩
  · unfold buildContextString contextBlockSpec
    rw [if_neg (by simpa using h)]
  · exact List.length_take_le 10 ctx.retrievedChunks
  · refine ⟨str "You are an intelligent knowledge assistant that helps users explore and understand information from their personal knowledge base.\n\nCONTEXT INFORMATION ("
        ++ natToJsStr n ++ str " sources searched):\n", ?_, ?_⟩
    · exact str "\n\nCONVERSATION HISTORY:\n"
        ++ jsJoin (str "\n\n")
            (msgs.map fun m => roleUpper m.role ++ str ": " ++ m.content)
        ++ str "\n\nINSTRUCTIONS:\n- Use the context information provided above to answer questions accurately\n- If the context doesn\x27t contain relevant information, say so clearly\n- Be conversational and helpful\n- Reference specific sources when relevant\n- Ask clarifying questions if the user\x27s intent is unclear\n- Maintain context from the conversation history\n\nASSISTANT: "
    · simp [buildBrainChatPrompt]

/-- Witness for C7_context_block at a context with one fragment. -/
theorem C7_context_block_witness :
    buildContextString exCtxOneChunk = contextBlockSpec exCtxOneChunk
    ∧ (exCtxOneChunk.retrievedChunks.take 10).length ≤ 10
    ∧ buildContextString exCtxOneChunk
        <:+: buildBrainChatPrompt [] (buildContextString exCtxOneChunk) 1 :=
  C7_context_block exCtxOneChunk [] 1 (by decide)

/-- Claim C8, counterexample: for the first message "a  b c d e f" (two
spaces between a and b) the code derives "a  b c d" — splitting on the
single space character keeps an empty piece — while the claimed
first-5-whitespace-separated-words reading gives "a b c d e". -/
theorem C8_counterexample :
    generateSessionTitle (str "a  b c d e f") = str "a  b c d"
    ∧ claimTitle (str "a  b c d e f") = str "a b c d e"
    ∧ generateSessionTitle (str "a  b c d e f")
        ≠ claimTitle (str "a  b c d e f") := by decide

/-- Claim C8 (amended): the derived title is the first 5 pieces of the
message split on the space character (consecutive spaces yield empty
pieces and non-space whitespace is not split on) joined by single spaces,
truncated to its first 47 characters plus "..." when longer than 50; the
derived title never exceeds 50 characters, and whenever the message's
whitespace consists of single spaces only, it coincides with the claimed
first-5-whitespace-separated-words reading. -/
theorem C8_title_derivation (msg : JsStr) :
    (generateSessionTitle msg).length ≤ 50
    ∧ (SingleSpaced msg → generateSessionTitle msg = claimTitle msg) := by
  refine ⟨generateSessionTitle_length_le msg, ?_⟩
  rintro ⟨hws, hne⟩
  unfold generateSessionTitle claimTitle whitespaceWords
  rw [splitByWs_eq_jsSplit_space msg hws]
  have hfilter : (jsSplit ' ' msg).filter (fun w => w ≠ []) = jsSplit ' ' msg := by
    rw [List.filter_eq_self]
    intro a ha
    simp only [ne_eq, decide_eq_true_eq]
    exact fun h => hne (h ▸ ha)
  rw [hfilter]

/-- Witness for C8_title_derivation on a single-spaced message. -/
theorem C8_title_derivation_witness :
    (generateSessionTitle (str "one two three four five six")).length ≤ 50
    ∧ generateSessionTitle (str "one two three four five six")
        = claimTitle (str "one two three four five six") :=
  ⟨(C8_title_derivation (str "one two three four five six")).1,
   (C8_title_derivation (str "one two three four five six")).2 (by decide)⟩

/-- Claim C9, counterexample: retitling session 200 (stored lastActivity
5) at persist time 9 stores the new title but leaves lastActivity at 5 —
the title update goes through findOneAndUpdate, which bypasses the
pre-save middleware that refreshes lastActivity. -/
theorem C9_counterexample :
    ((controllerUpdateSessionTitle exSessions 200 1 (str "renamed") 9).1.map
        (·.lastActivity) = [5])
    ∧ ((controllerUpdateSessionTitle exSessions 200 1 (str "renamed") 9).1.map
        (·.title) = [str "renamed"])
    ∧ (5 : Nat) ≠ 9 := by decide

/-- Claim C9 (amended): every document save — on either schema variant,
and in particular the save in updateSessionWithMessages that appends the
user and assistant turns — stamps lastActivity with the persist time via
the pre-save middleware; the title update, which persists through
findOneAndUpdate instead, leaves every stored lastActivity unchanged. -/
theorem C9_lastActivity_on_save (c : Conversation) (s : Session)
    (userMessage aiResponse : JsStr) (ctx : AggregatedContext)
    (sessions : List Session) (sessionId userId : Nat) (title : JsStr)
    (now : Nat) :
    (saveConversation now c).lastActivity = now
    ∧ (saveSession now s).lastActivity = now
    ∧ (updateSessionWithMessages s userMessage aiResponse ctx now).lastActivity
        = now
    ∧ (controllerUpdateSessionTitle sessions sessionId userId title now).1.map
        (·.lastActivity) = sessions.map (·.lastActivity) := by
  refine ⟨rfl, rfl, rfl, ?_⟩
  unfold controllerUpdateSessionTitle
  by_cases h : jsTrim title = [] ∨ 200 < title.length
  · rw [if_pos h]
  · rw [if_neg h]
    simp only [findOneAndUpdateTitle]
    exact map_lastActivity_updateFirst sessionId userId
      (fun m => { m with title := jsTrim title, updatedAt := now })
      (fun _ => rfl) sessions

/-- Claim C10: every source descriptor produced by aggregateContext has
kind capture, whatever the policy — buildSourcesMetadata constructs every
descriptor with the capture kind. -/
theorem C10_sources_are_capture_kind (st : Store) (f : SearchFn)
    (q : ContextQuery) (s : Source)
    (hs : s ∈ (aggregateContext st f q).1.sources) :
    s.type = ItemType.capture := by
  have hsrc : (aggregateContext st f q).1.sources
      = buildSourcesMetadata st (resolveScope st q) q.contextType := rfl
  rw [hsrc] at hs
  unfold buildSourcesMetadata at hs
  by_cases h : (resolveScope st q).isEmpty
  · rw [if_pos h] at hs
    simp at hs
  · rw [if_neg h] at hs
    rcases List.mem_map.mp hs with ⟨c, _, hc⟩
    exact hc ▸ rfl

/-- Witness for C10_sources_are_capture_kind on a store with one capture
reached through a collection query. -/
theorem C10_sources_witness :
    (Source.mk 10 ItemType.capture (str "mine") 1).type = ItemType.capture :=
  C10_sources_are_capture_kind wfStore okSearch exQueryCollection
    (Source.mk 10 ItemType.capture (str "mine") 1) (by decide)
